import Mathlib

/-!
Verification of the JIRA agent workflow core: a shallow embedding of
`src/services/jira_agent_workflow.py`, `src/services/code_generator.py` and the
session-cleanup code of `src/services/jira_agent_service.py`, together with
theorems settling the specification claims about the session state machine,
the artifact extractor and the feedback-incorporation loop.

Python strings are modelled as Lean `String`s; the handful of Python `str`
operations the code uses (`split`, `strip`, `lower`, slicing, containment)
are reimplemented below over `List Char` so that all definitions are
executable and kernel-reducible.  `datetime` values are modelled as `Nat`
timestamps in seconds; exceptions are modelled with `Except String`.
-/

namespace JiraAgent

/-! ## Python string primitives -/

/-- Whitespace characters recognised by Python `str.strip()` and by `\s` in
its `re` module (ASCII fragment, which is all the sources use). -/
def pyWs (c : Char) : Bool :=
  c = ' ' || c = '\t' || c = '\n' || c = '\r' || c = '\x0b' || c = '\x0c'

/-- Python `str.strip()` on a character list. -/
def stripChars (cs : List Char) : List Char :=
  ((cs.dropWhile pyWs).reverse.dropWhile pyWs).reverse

/-- Python `str.strip()`. -/
def pyStrip (s : String) : String :=
  String.mk (stripChars s.data)

/-- Python `str.lower()` (ASCII). -/
def pyLower (s : String) : String :=
  String.mk (s.data.map Char.toLower)

/-- Does the first list occur at the head of the second? -/
def listStartsWith : List Char → List Char → Bool
  | [], _ => true
  | _ :: _, [] => false
  | p :: ps, c :: cs => p = c && listStartsWith ps cs

/-- Case-insensitive variant of `listStartsWith`; the pattern is given in
lower case (used for `re.IGNORECASE` matching). -/
def listStartsWithCI : List Char → List Char → Bool
  | [], _ => true
  | _ :: _, [] => false
  | p :: ps, c :: cs => p = c.toLower && listStartsWithCI ps cs

/-- Does the first list occur at the tail of the second? -/
def listEndsWith (sfx cs : List Char) : Bool :=
  decide (sfx.length ≤ cs.length) && decide (cs.drop (cs.length - sfx.length) = sfx)

/-- Python `sub in s` (substring containment) on character lists. -/
def listContains (sub : List Char) : List Char → Bool
  | [] => listStartsWith sub []
  | c :: cs => listStartsWith sub (c :: cs) || listContains sub cs

/-- Python `sub in s` for strings. -/
def pyContains (s sub : String) : Bool :=
  listContains sub.data s.data

/-- Python `s.split(sep)` for a one-character separator (the sources only
split on a newline this way).  `split` on the empty string yields `[""]`. -/
def splitOnChar (sep : Char) : List Char → List (List Char)
  | [] => [[]]
  | c :: cs =>
    if c = sep then [] :: splitOnChar sep cs
    else
      match splitOnChar sep cs with
      | [] => [[c]]
      | l :: ls => (c :: l) :: ls

/-- Python `len(s.split("\n"))`: the number of newline-delimited lines of a
string, the quantity the sources store in `size_lines`. -/
def countLines (s : String) : Nat :=
  (splitOnChar '\n' s.data).length

/-- The newline-delimited lines of a string, as strings. -/
def pyLines (s : String) : List String :=
  (splitOnChar '\n' s.data).map String.mk

/-- Python `"\n".join(lines)`, used to reassemble file bodies. -/
def joinLines : List String → String
  | [] => ""
  | [l] => l
  | l :: l2 :: ls => l ++ "\n" ++ joinLines (l2 :: ls)

/-- Python `s.startswith(p)`. -/
def pyStartsWith (s p : String) : Bool :=
  listStartsWith p.data s.data

/-- Python `s.endswith(p)`. -/
def pyEndsWith (s p : String) : Bool :=
  listEndsWith p.data s.data

/-- Python `s.split(sep)` for a multi-character separator (used with the
fence delimiter).  Each step consumes at least one character, so the
character count serves as structural fuel; the `0` case is unreachable
when the fuel starts at the length of the input. -/
def splitOnListGo (sep : List Char) : Nat → List Char → List Char → List (List Char)
  | _, [], acc => [acc.reverse]
  | 0, cs, acc => [acc.reverse ++ cs]
  | Nat.succ fuel, c :: cs, acc =>
    if sep ≠ [] && listStartsWith sep (c :: cs) then
      acc.reverse :: splitOnListGo sep fuel (List.drop (sep.length - 1) cs) []
    else
      splitOnListGo sep fuel cs (c :: acc)

/-- Python `s.split(sep)` on strings, multi-character separator. -/
def pySplitOn (s sep : String) : List String :=
  (splitOnListGo sep.data s.data.length s.data []).map String.mk

/-- Python `s[:n]` (first `n` characters). -/
def pyTake (s : String) (n : Nat) : String :=
  String.mk (s.data.take n)

/-- Python `pathlib.Path(p).suffix` followed by nothing: the extension of
the final path component including its dot, empty when the name has no dot
or only a leading one. -/
def pathSuffix (p : String) : String :=
  let name := ((splitOnChar '/' p.data).map String.mk).getLast?.getD ""
  match splitOnChar '.' name.data with
  | [] => ""
  | [_] => ""
  | first :: rest =>
    match rest.getLast? with
    | none => ""
    | some last =>
      -- a name such as ".py" (single leading dot) has no suffix
      if first.isEmpty && rest.length = 1 then "" else String.mk ('.' :: last)

/-! ## Data model (`src/models/schemas.py`)

Pydantic models become structures.  `datetime` fields are `Nat` timestamps
in seconds.  Str-enums whose values the core never inspects are kept as
plain strings. -/

/-- Workflow states of `WorkflowState` in `schemas.py`. -/
inductive WorkflowState
  | fetching_ticket
  | analyzing_requirements
  | generating_code
  | awaiting_approval
  | incorporating_feedback
  | completed
  | failed
deriving DecidableEq, Repr

/-- Approval decisions of `ApprovalStatus` in `schemas.py`. -/
inductive ApprovalStatus
  | pending
  | approved
  | rejected
deriving DecidableEq, Repr

/-- `JiraTicketData`.  The `issue_type`, `priority` and `status` str-enums
and the `custom_fields` dictionary are carried as strings: the workflow
core only stores them. -/
structure JiraTicketData where
  key : String
  summary : String
  description : Option String := none
  issue_type : String := "Task"
  priority : String := "Medium"
  status : String := "To Do"
  assignee : Option String := none
  reporter : Option String := none
  labels : List String := []
  components : List String := []
  custom_fields : List (String × String) := []
deriving DecidableEq, Repr

/-- `JiraTicketAnalysis`. -/
structure JiraTicketAnalysis where
  ticket_key : String
  requirements : List String
  technical_specs : List String
  acceptance_criteria : List String
  complexity_score : Nat
  estimated_files : Nat
  suggested_technologies : List String
  dependencies : List String := []
deriving DecidableEq, Repr

/-- `GenerationOptions` with its pydantic defaults. -/
structure GenerationOptions where
  generate_tests : Bool := true
  code_style : String := "typescript"
  framework : String := "react"
  test_framework : String := "jest"
  include_documentation : Bool := true
  max_file_size : Nat := 1000
  architecture_pattern : Option String := none
  database_type : Option String := none
  api_style : Option String := none
deriving DecidableEq, Repr

/-- The pydantic default options (every field defaulted). -/
def defaultGenerationOptions : GenerationOptions := {}

/-- `GeneratedFile`: one extracted artifact. -/
structure GeneratedFile where
  path : String
  content : String
  file_type : String
  language : String
  description : String
  size_lines : Nat
deriving DecidableEq, Repr

/-- `UserFeedback`. -/
structure UserFeedback where
  feedback_text : String
  specific_issues : List String := []
  improvement_requests : List String := []
  approval_status : ApprovalStatus
  priority_changes : List String := []
deriving DecidableEq, Repr

/-- `LLMResponse` returned by the text-generation collaborator. -/
structure LLMResponse where
  content : String
  tokens_used : Nat
  model_used : String := "model"
  finish_reason : Option String := none
deriving DecidableEq, Repr

/-- `GenerationResult` returned by
`CodeGeneratorService.generate_code_from_requirements`.  Test results,
timing and metadata are not consulted by the workflow engine and are
omitted. -/
structure GenerationResult where
  success : Bool
  generated_files : List GeneratedFile := []
  llm_tokens_used : Nat := 0
  error_message : Option String := none
  warnings : List String := []
deriving DecidableEq, Repr

/-- `CodeGenerationSession` with its pydantic defaults
(`iteration_count = 1`, `max_iterations = 5`). -/
structure CodeGenerationSession where
  session_id : String
  ticket_key : String
  current_state : WorkflowState
  iteration_count : Nat := 1
  max_iterations : Nat := 5
  original_ticket : Option JiraTicketData := none
  ticket_analysis : Option JiraTicketAnalysis := none
  generated_code : List GeneratedFile := []
  user_feedback_history : List UserFeedback := []
  created_at : Nat := 0
  updated_at : Nat := 0
  total_tokens_used : Nat := 0
  error_messages : List String := []
deriving DecidableEq, Repr

/-- `ApprovalRequest`. -/
structure ApprovalRequest where
  session_id : String
  feedback : UserFeedback
deriving DecidableEq, Repr

/-- `JiraAgentRequest`.  `session_config` is a `Dict[str, Any]` of which the
engine reads only the integer entry `"max_iterations"`; it is modelled as
an association list of naturals. -/
structure JiraAgentRequest where
  ticket_key : String
  generation_options : GenerationOptions := {}
  session_config : List (String × Nat) := []
deriving DecidableEq, Repr

/-- `JiraAgentResponse` (the `estimated_completion` field, never set by the
engine, is omitted). -/
structure JiraAgentResponse where
  session_id : String
  current_state : WorkflowState
  success : Bool
  message : String
  ticket_analysis : Option JiraTicketAnalysis := none
  generated_code : List GeneratedFile := []
  approval_required : Bool := false
  iteration_count : Nat := 1
  processing_time_ms : Nat := 0
  tokens_used : Nat := 0
  warnings : List String := []
deriving DecidableEq, Repr

/-! ## Artifact extraction (`src/services/code_generator.py`)

`CodeGeneratorService._parse_generated_content` scans the raw text with a
single regular expression for file-boundary markers (a line naming a path
with a known extension, optionally prefixed by a code fence and/or a
`filepath:` comment marker), takes as the body everything up to the next
explicit `filepath:` marker or the end of the text, and strips fence
delimiter lines from the body.  The regex is rendered below as the
line-oriented scanner it denotes. -/

/-- The filename extensions of the file-boundary pattern in
`_parse_generated_content` (matched case-insensitively). -/
def knownExtensions : List String :=
  ["ts", "js", "py", "java", "cs", "tsx", "jsx", "vue", "html", "css",
   "scss", "json", "yaml", "yml", "md"]

/-- The optional language tags of a code fence in the same pattern. -/
def fenceLanguages : List String :=
  ["typescript", "javascript", "python", "java", "csharp"]

/-- Consume an optional fence opener with optional language tag and
trailing whitespace: the `(?:` + "```" + `(?:lang)?\s*)?` part of the
pattern, within one line. -/
def dropFenceOpen (cs : List Char) : List Char :=
  if listStartsWith "```".data cs then
    let cs1 := cs.drop 3
    let cs2 :=
      match fenceLanguages.find? (fun l => listStartsWithCI l.data cs1) with
      | some l => cs1.drop l.length
      | none => cs1
    cs2.dropWhile pyWs
  else cs

/-- Is one of the `filepath:` markers (`//`, `#` or `<!--`, then optional
whitespace, then `filepath:`) at the head of the character list?  When it
is, return the rest (with the marker and its trailing whitespace consumed,
the `(?://\s*filepath:\s*|...)` part of the pattern). -/
def dropPathMarker (cs : List Char) : Option (List Char) :=
  let afterIntro : Option (List Char) :=
    if listStartsWith "//".data cs then some (cs.drop 2)
    else if listStartsWith "#".data cs then some (cs.drop 1)
    else if listStartsWith "<!--".data cs then some (cs.drop 4)
    else none
  match afterIntro with
  | none => none
  | some rest =>
    let rest := rest.dropWhile pyWs
    if listStartsWithCI "filepath:".data rest then
      some ((rest.drop 9).dropWhile pyWs)
    else none

/-- Does a trimmed candidate line end in a dot followed by a known
extension, with a non-empty stem (`[^\n]+\.(ts|js|...)`)? -/
def hasKnownExtension (cand : String) : Bool :=
  knownExtensions.any (fun ext =>
    listEndsWith ('.' :: ext.data) (cand.data.map Char.toLower) &&
    decide (ext.length + 1 < cand.length))

/-- Interpret one line as a file-boundary header: strip an optional fence
opener and an optional `filepath:` marker, then require the remainder to
name a path with a known extension (group 1 of the pattern, which the
caller then strips). -/
def headerOfLine (l : String) : Option String :=
  let cs1 := dropFenceOpen l.data
  let cs2 := (dropPathMarker cs1).getD cs1
  let cand := pyStrip (String.mk cs2)
  if cand ≠ "" && hasKnownExtension cand then some cand else none

/-- Is a body terminator — an optional fence opener followed by a
`filepath:` marker, the lookahead of the pattern — at the head of the
character list? -/
def terminatorAt (cs : List Char) : Bool :=
  (dropPathMarker (dropFenceOpen cs)).isSome

/-- Split a line at the first body terminator occurring in it, returning
the part before the marker and the part from the marker on. -/
def splitLineAtTerminator (cs : List Char) : Option (List Char × List Char) :=
  if terminatorAt cs then some ([], cs)
  else
    match cs with
    | [] => none
    | c :: rest =>
      match splitLineAtTerminator rest with
      | none => none
      | some (pre, suf) => some (c :: pre, suf)

/-- Collect the body lines of a match: everything up to the next
`filepath:` marker (or the end of the text).  Returns the body lines and
the remaining lines, the latter beginning at the marker when one was
found. -/
def collectBody : List String → List String × List String
  | [] => ([], [])
  | l :: ls =>
    match splitLineAtTerminator l.data with
    | some ps => ([String.mk ps.1], String.mk ps.2 :: ls)
    | none => (l :: (collectBody ls).1, (collectBody ls).2)

/-- `re.finditer` of the file-boundary pattern over the whole text: the
list of `(group 1, group 3)` pairs, i.e. `(path line, raw body)`.  A header
needs a following newline (`\s*\n` in the pattern), so the final line of
the text can never be a header. -/
def findMatchesGo : Nat → List String → List (String × String)
  | _, [] => []
  | _, [_] => []
  | 0, _ => []
  | Nat.succ fuel, l :: rest =>
    match headerOfLine l with
    | some path =>
      (path, joinLines (collectBody rest).1) :: findMatchesGo fuel (collectBody rest).2
    | none => findMatchesGo fuel rest

/-- `re.finditer` of the file-boundary pattern over the whole text: the
list of `(group 1, group 3)` pairs, i.e. `(path line, raw body)`.  A header
needs a following newline (the pattern requires one after the path), so the
final line of the text can never be a header.  `collectBody` consumes at
least the header line each round, so the line count serves as structural
fuel for `findMatchesGo`. -/
def findFileMatches (content : String) : List (String × String) :=
  findMatchesGo (pyLines content).length (pyLines content)

/-- The `lines[-1]` indexing of `_parse_generated_content` (lines 152–159):
when the body starts with a fence, drop the opening fence line, then drop a
closing fence line; dropping the opening line of a one-line body leaves an
empty list, and Python raises `IndexError` on `lines[-1]`. -/
def stripBodyFences (file_content : String) : Except String String :=
  if pyStartsWith file_content "```" then
    match pyLines file_content with
    | [] => Except.error "IndexError: list index out of range"
    | l0 :: rest =>
      let lines := if pyStartsWith l0 "```" then rest else l0 :: rest
      match lines.getLast? with
      | none => Except.error "IndexError: list index out of range"
      | some last =>
        Except.ok (joinLines (if pyStrip last = "```" then lines.dropLast else lines))
  else Except.ok file_content

/-- `CodeGeneratorService._get_language_from_extension`. -/
def get_language_from_extension (extension : String) : String :=
  let language_map : List (String × String) :=
    [(".ts", "typescript"), (".tsx", "typescript"), (".js", "javascript"),
     (".jsx", "javascript"), (".py", "python"), (".java", "java"),
     (".cs", "csharp"), (".css", "css"), (".scss", "scss"),
     (".html", "html"), (".json", "json"), (".yaml", "yaml"),
     (".yml", "yaml"), (".md", "markdown")]
  ((language_map.find? (fun p => p.1 = extension)).map Prod.snd).getD "text"

/-- `CodeGeneratorService._get_file_type`. -/
def get_file_type (file_path : String) (_content : String) : String :=
  let path_lower := pyLower file_path
  if pyContains path_lower "test" || pyContains path_lower "spec" then "test"
  else if pyEndsWith path_lower ".md" then "documentation"
  else if pyEndsWith path_lower ".json" || pyEndsWith path_lower ".yaml" ||
          pyEndsWith path_lower ".yml" then "config"
  else "source"

/-- The first-ten-lines loop of
`CodeGeneratorService._generate_file_description`. -/
def descriptionFromLines (file_path : String) : List String → String
  | [] => "Source code file: " ++ file_path
  | l :: ls =>
    if pyContains l "class " then "Source file containing class definitions"
    else if pyContains l "function " || pyContains l "def " then
      "Source file containing function definitions"
    else descriptionFromLines file_path ls

/-- `CodeGeneratorService._generate_file_description`. -/
def generate_file_description (file_path content file_type : String) : String :=
  if file_type = "test" then "Test file for " ++ file_path
  else if file_type = "documentation" then "Documentation file: " ++ file_path
  else if file_type = "config" then "Configuration file: " ++ file_path
  else descriptionFromLines file_path ((pyLines content).take 10)

/-- `CodeGeneratorService._get_default_extension`. -/
def get_default_extension (language : String) : String :=
  let extension_map : List (String × String) :=
    [("typescript", "ts"), ("javascript", "js"), ("python", "py"),
     ("java", "java"), ("csharp", "cs")]
  ((extension_map.find? (fun p => p.1 = language)).map Prod.snd).getD "txt"

/-- The per-match body of the loop of `_parse_generated_content` (lines
148–180): strip the path and the body, remove fence delimiters (which can
raise, see `stripBodyFences`), classify, and build a `GeneratedFile` whose
`size_lines` is the line count of its content. -/
def processMatch (m : String × String) : Except String GeneratedFile := do
  let file_path := pyStrip m.1
  let file_content ← stripBodyFences (pyStrip m.2)
  let file_extension := pyLower (pathSuffix file_path)
  let language := get_language_from_extension file_extension
  let file_type := get_file_type file_path file_content
  let description := generate_file_description file_path file_content file_type
  pure { path := file_path, content := file_content, file_type := file_type,
         language := language, description := description,
         size_lines := countLines file_content }

/-- The `for match in matches` loop of `_parse_generated_content`: files
are accumulated in match order; an exception raised while processing any
match aborts the whole call. -/
def processMatches : List (String × String) → Except String (List GeneratedFile)
  | [] => Except.ok []
  | m :: ms => do
    let g ← processMatch m
    let gs ← processMatches ms
    pure (g :: gs)

/-- `CodeGeneratorService._parse_generated_content`: the artifact
extractor.  When no boundary matches, the entire input text becomes a
single source artifact under a default path.  An `IndexError` raised while
stripping fences propagates as `Except.error`. -/
def parse_generated_content (content : String) (options : GenerationOptions) :
    Except String (List GeneratedFile) := do
  let files ← processMatches (findFileMatches content)
  if files.isEmpty then
    pure [{ path := "generated_code." ++ get_default_extension options.code_style,
            content := content, file_type := "source",
            language := options.code_style,
            description := "Generated " ++ options.code_style ++ " code for " ++
              options.framework,
            size_lines := countLines content }]
  else
    pure files

/-! ## The duplicated fenced-block parser
(`_parse_generated_code` / `_parse_generated_code_new`)

`code_generator.py` contains two byte-identical copies of a second parser
driven by the pattern `"``" ++ "`" ++ "(?:filename:\s*([^\n]+)\n)?(.*?)" ++
"``" ++ "`"`: bodies of consecutive pairs of fences, each optionally
opening with a `filename:` directive.  `generate_code_from_requirements`
(the overload actually reached from the workflow engine) calls the `_new`
copy.  Both are embedded once here. -/

/-- The elements at odd indices of a list that are not its last element:
for the segments of `split` on the fence, exactly the bodies of complete
fenced blocks, in order. -/
def oddIndices : List α → List α
  | [] => []
  | [_] => []
  | _ :: b :: rest => b :: oddIndices rest

/-- The optional `filename:\s*([^\n]+)\n` directive at the head of a block
body; returns the raw filename and the remaining body when present. -/
def parseFilenameDirective (seg : String) : Option (String × String) :=
  if listStartsWith "filename:".data seg.data then
    let rest := (seg.data.drop 9).dropWhile pyWs
    let name := rest.takeWhile (fun c => c ≠ '\n')
    match rest.drop name.length with
    | '\n' :: body => if name.isEmpty then none else some (String.mk name, String.mk body)
    | _ => none
  else none

/-- `CodeGeneratorService._determine_file_type` (and its `_new` copy). -/
def determine_file_type (filename : String) (_content : String) : String :=
  let filename_lower := pyLower filename
  if ["test", "spec", "__tests__"].any (fun t => pyContains filename_lower t) then
    "test"
  else if ["config", "settings", "env"].any (fun t => pyContains filename_lower t) then
    "config"
  else if pyEndsWith filename_lower ".md" || pyEndsWith filename_lower ".txt" ||
          pyEndsWith filename_lower ".rst" then
    "documentation"
  else if pyContains filename_lower "package.json" ||
          pyContains filename_lower "requirements.txt" then
    "dependency"
  else "source"

/-- `CodeGeneratorService._determine_language` (and its `_new` copy). -/
def determine_language (filename : String) (default_style : String) : String :=
  let ext := pyLower (pathSuffix filename)
  let language_map : List (String × String) :=
    [(".js", "javascript"), (".ts", "typescript"), (".py", "python"),
     (".java", "java"), (".cs", "csharp"), (".cpp", "cpp"), (".c", "c"),
     (".go", "go"), (".rs", "rust"), (".php", "php"), (".rb", "ruby"),
     (".json", "json"), (".yaml", "yaml"), (".yml", "yaml"),
     (".md", "markdown")]
  ((language_map.find? (fun p => p.1 = ext)).map Prod.snd).getD default_style

/-- `CodeGeneratorService._get_file_extension` (and its `_new` copy). -/
def get_file_extension (code_style : String) : String :=
  let extensions : List (String × String) :=
    [("javascript", ".js"), ("typescript", ".ts"), ("python", ".py"),
     ("java", ".java"), ("csharp", ".cs"), ("cpp", ".cpp"), ("go", ".go"),
     ("rust", ".rs"), ("php", ".php"), ("ruby", ".rb")]
  ((extensions.find? (fun p => p.1 = pyLower code_style)).map Prod.snd).getD ".txt"

/-- `CodeGeneratorService._parse_generated_code` (and its `_new` copy): the
fenced-block parser used by `generate_code_from_requirements`.  Blocks with
an empty stripped body are skipped; when no file results and the response
has non-whitespace content, the whole stripped response becomes a single
default file — note its `size_lines` counts the UNstripped response.  A
blank response yields an empty list. -/
def parse_generated_code (response : String) (options : GenerationOptions) :
    List GeneratedFile :=
  let blocks := oddIndices ((pySplitOn response "```").dropLast)
  let files := blocks.enum.filterMap (fun p =>
    let nameBody :=
      match parseFilenameDirective p.2 with
      | some nb => nb
      | none =>
        ("generated_file_" ++ toString (p.1 + 1) ++
           get_file_extension options.code_style, p.2)
    let filename := pyStrip nameBody.1
    let content := pyStrip nameBody.2
    if content = "" then none
    else
      let file_type := determine_file_type filename content
      some { path := filename, content := content, file_type := file_type,
             language := determine_language filename options.code_style,
             description := "Generated " ++ file_type ++ " file",
             size_lines := countLines content })
  if files.isEmpty && pyStrip response ≠ "" then
    [{ path := "main" ++ get_file_extension options.code_style,
       content := pyStrip response, file_type := "source",
       language := options.code_style, description := "Main generated file",
       size_lines := countLines response }]
  else files

/-! ## Workflow engine (`src/services/jira_agent_workflow.py`)

`JiraAgentWorkflowService` keeps a `session_id → session` dictionary.  The
dictionary is an association list with the insertion-ordered, key-unique
update discipline of a Python `dict`.  Collaborator calls (JIRA client,
LLM) are modelled by passing their outcomes in as values; a raised
exception from the LLM call is an `Except.error`. -/

/-- Dictionary lookup: `self.sessions[session_id]` / the
`session_id in self.sessions` test. -/
def lookupEntry : List (String × α) → String → Option α
  | [], _ => none
  | (k, v) :: rest, key => if k = key then some v else lookupEntry rest key

/-- Dictionary assignment `d[key] = value`: replace the entry in place when
the key exists, append otherwise. -/
def storeEntry : List (String × α) → String → α → List (String × α)
  | [], key, v => [(key, v)]
  | (k, w) :: rest, key, v =>
    if k = key then (key, v) :: rest else (k, w) :: storeEntry rest key v

/-- Dictionary deletion `del d[key]`. -/
def removeEntry : List (String × α) → String → List (String × α)
  | [], _ => []
  | (k, w) :: rest, key => if k = key then rest else (k, w) :: removeEntry rest key

/-- The state of a `JiraAgentWorkflowService`: its session dictionary. -/
structure WorkflowService where
  sessions : List (String × CodeGenerationSession)
deriving DecidableEq, Repr

/-- `JiraAgentWorkflowService._parse_improved_code_response`: the
"simplified parser" of the feedback loop.  It does not parse the LLM
response at all; every original file is kept (same path, type, language)
with a feedback banner prepended, the first 200 characters of the response
appended as a comment, and `size_lines` set to the original count plus 5. -/
def parse_improved_code_response (response : String)
    (original_files : List GeneratedFile) : List GeneratedFile :=
  original_files.map (fun original_file =>
    { path := original_file.path
      content := "// Improved based on user feedback\n" ++ original_file.content ++
        "\n\n// Additional improvements:\n// " ++ pyTake response 200 ++ "..."
      file_type := original_file.file_type
      language := original_file.language
      description := "Improved version: " ++ original_file.description
      size_lines := original_file.size_lines + 5 })

/-- `JiraAgentWorkflowService._regenerate_code_with_feedback`: on an LLM
failure (exception) the internal handler returns an empty list and the
session is untouched; on success the returned token usage is added to the
session and the response is fed to `parse_improved_code_response`. -/
def regenerate_code_with_feedback (session : CodeGenerationSession)
    (_feedback : UserFeedback) (llm : Except String LLMResponse) :
    CodeGenerationSession × List GeneratedFile :=
  match llm with
  | Except.error _ => (session, [])
  | Except.ok llm_response =>
    let session := { session with
      total_tokens_used := session.total_tokens_used + llm_response.tokens_used }
    (session, parse_improved_code_response llm_response.content session.generated_code)

/-- `JiraAgentWorkflowService._create_error_response`: when the session
exists it is moved to FAILED and the message appended to its error list;
the returned response reports failure with the message as warning. -/
def create_error_response (svc : WorkflowService)
    (session_id error_message : String) : WorkflowService × JiraAgentResponse :=
  let svc :=
    match lookupEntry svc.sessions session_id with
    | some s =>
      let failed := { s with current_state := WorkflowState.failed,
                             error_messages := s.error_messages ++ [error_message] }
      { svc with sessions := storeEntry svc.sessions session_id failed }
    | none => svc
  (svc,
   { session_id := session_id, current_state := WorkflowState.failed,
     success := false, message := error_message, approval_required := false,
     iteration_count := 0, processing_time_ms := 0, tokens_used := 0,
     warnings := [error_message] })

/-- `JiraAgentWorkflowService.handle_user_approval`.  `now` models
`datetime.now()` (seconds); `llm` the outcome of the LLM call made on the
rejection path.  Note that the handler never consults
`session.current_state`: the feedback is appended to the history and the
decision processed for a session in any state. -/
def handle_user_approval (svc : WorkflowService) (now : Nat)
    (approval_request : ApprovalRequest) (llm : Except String LLMResponse) :
    WorkflowService × JiraAgentResponse :=
  let session_id := approval_request.session_id
  match lookupEntry svc.sessions session_id with
  | none => create_error_response svc session_id "Session not found"
  | some session =>
    let feedback := approval_request.feedback
    -- session.user_feedback_history.append(feedback): visible in the dict
    -- at once because the dict aliases the session object
    let session := { session with
      user_feedback_history := session.user_feedback_history ++ [feedback] }
    let svc := { svc with sessions := storeEntry svc.sessions session_id session }
    match feedback.approval_status with
    | ApprovalStatus.approved =>
      let session := { session with
        current_state := WorkflowState.completed, updated_at := now }
      let svc := { svc with sessions := storeEntry svc.sessions session_id session }
      (svc,
       { session_id := session_id, current_state := WorkflowState.completed,
         success := true,
         message := "Code approved and finalized successfully!",
         generated_code := session.generated_code, approval_required := false,
         iteration_count := session.iteration_count,
         processing_time_ms := (now - session.created_at) * 1000,
         tokens_used := session.total_tokens_used })
    | ApprovalStatus.rejected =>
      if session.iteration_count ≥ session.max_iterations then
        let session := { session with
          current_state := WorkflowState.failed, updated_at := now }
        let svc := { svc with sessions := storeEntry svc.sessions session_id session }
        create_error_response svc session_id
          ("Maximum iterations (" ++ toString session.max_iterations ++
           ") reached without approval")
      else
        let session := { session with
          current_state := WorkflowState.incorporating_feedback,
          iteration_count := session.iteration_count + 1, updated_at := now }
        let svc := { svc with sessions := storeEntry svc.sessions session_id session }
        let regenerated := regenerate_code_with_feedback session feedback llm
        let session := regenerated.1
        let improved_code := regenerated.2
        let svc := { svc with sessions := storeEntry svc.sessions session_id session }
        if improved_code.isEmpty then
          create_error_response svc session_id "Failed to regenerate code with feedback"
        else
          let session := { session with
                           generated_code := improved_code,
                           current_state := WorkflowState.awaiting_approval,
                           updated_at := now }
          let svc := { svc with sessions := storeEntry svc.sessions session_id session }
          (svc,
           { session_id := session_id,
             current_state := WorkflowState.awaiting_approval, success := true,
             message := "Code regenerated with your feedback (iteration " ++
               toString session.iteration_count ++ "). Please review again.",
             generated_code := improved_code, approval_required := true,
             iteration_count := session.iteration_count,
             processing_time_ms := (now - session.created_at) * 1000,
             tokens_used := session.total_tokens_used })
    | ApprovalStatus.pending =>
      create_error_response svc session_id "Invalid approval status"

/-- The outcomes of the collaborator calls made by
`start_jira_agent_process`: JIRA client initialization, ticket fetch,
ticket analysis, and the code-generation result. -/
structure CollaboratorRun where
  jira_init_ok : Bool
  ticket : Option JiraTicketData
  analysis : Option JiraTicketAnalysis
  generation : GenerationResult
deriving DecidableEq, Repr

/-- `JiraAgentWorkflowService._generate_code_from_analysis`: the generated
files on success, an empty list on failure (logged, not raised). -/
def generate_code_from_analysis (generation_result : GenerationResult) :
    List GeneratedFile :=
  if generation_result.success then generation_result.generated_files else []

/-- `JiraAgentWorkflowService.start_jira_agent_process`.  `session_id`
models the fresh `uuid.uuid4()`; each collaborator failure routes through
`create_error_response`, and data stored on the session before the failing
step stays there (the dict aliases the session object). -/
def start_jira_agent_process (svc : WorkflowService) (now : Nat)
    (session_id : String) (request : JiraAgentRequest) (collab : CollaboratorRun) :
    WorkflowService × JiraAgentResponse :=
  let session : CodeGenerationSession :=
    { session_id := session_id, ticket_key := request.ticket_key,
      current_state := WorkflowState.fetching_ticket,
      max_iterations := (lookupEntry request.session_config "max_iterations").getD 5,
      created_at := now, updated_at := now }
  let svc := { svc with sessions := storeEntry svc.sessions session_id session }
  if !collab.jira_init_ok then
    create_error_response svc session_id "Failed to initialize JIRA client"
  else
    match collab.ticket with
    | none =>
      create_error_response svc session_id
        ("Failed to fetch ticket: " ++ request.ticket_key)
    | some ticket_data =>
      let session := { session with
                       original_ticket := some ticket_data,
                       current_state := WorkflowState.analyzing_requirements,
                       updated_at := now }
      let svc := { svc with sessions := storeEntry svc.sessions session_id session }
      match collab.analysis with
      | none =>
        create_error_response svc session_id "Failed to analyze ticket requirements"
      | some ticket_analysis =>
        let session := { session with
                         ticket_analysis := some ticket_analysis,
                         current_state := WorkflowState.generating_code,
                         updated_at := now }
        let svc := { svc with sessions := storeEntry svc.sessions session_id session }
        let generated_code := generate_code_from_analysis collab.generation
        if generated_code.isEmpty then
          create_error_response svc session_id "Failed to generate code"
        else
          let session := { session with
                           generated_code := generated_code,
                           current_state := WorkflowState.awaiting_approval,
                           updated_at := now }
          let svc := { svc with sessions := storeEntry svc.sessions session_id session }
          (svc,
           { session_id := session_id,
             current_state := WorkflowState.awaiting_approval, success := true,
             message := "Code generated successfully. Please review and approve or provide feedback.",
             ticket_analysis := some ticket_analysis,
             generated_code := generated_code, approval_required := true,
             iteration_count := session.iteration_count,
             processing_time_ms := (now - session.created_at) * 1000,
             tokens_used := session.total_tokens_used })

/-- `JiraAgentWorkflowService.cleanup_old_sessions`: collects every session
whose age exceeds the threshold — terminal or not — and deletes them.  The
Python comparison `(now - created_at)/3600 > max_age_hours` is cleared of
its division. -/
def cleanup_old_sessions (svc : WorkflowService) (now : Nat)
    (max_age_hours : Nat) : WorkflowService :=
  let sessions_to_remove := (svc.sessions.filter
    (fun p => now - p.2.created_at > max_age_hours * 3600)).map Prod.fst
  { svc with sessions :=
      sessions_to_remove.foldl (fun m sid => removeEntry m sid) svc.sessions }

/-! ## The parallel agent service (`src/services/jira_agent_service.py`)

A second, independent service with its own workflow records; only its
sweep, `cleanup_completed_workflows`, matters to the claims. -/

/-- `WorkflowStatus` of `jira_agent_service.py`. -/
inductive WorkflowStatus
  | initiated
  | analyzing
  | generating
  | pending_approval
  | approved
  | rejected
  | completed
  | failed
deriving DecidableEq, Repr

/-- `CodeGenerationWorkflow`; only the fields `cleanup_completed_workflows`
consults (plus identifiers) are modelled. -/
structure CodeGenerationWorkflow where
  workflow_id : String
  ticket_key : String
  status : WorkflowStatus := WorkflowStatus.initiated
  iterations : Nat := 0
  max_iterations : Nat := 3
  created_at : Nat := 0
  updated_at : Nat := 0
deriving DecidableEq, Repr

/-- The state of a `JiraAgentService`: its workflow dictionary. -/
structure AgentService where
  active_workflows : List (String × CodeGenerationWorkflow)
deriving DecidableEq, Repr

/-- Is a workflow status one of the three terminal statuses
`cleanup_completed_workflows` sweeps? -/
def isSweptStatus (s : WorkflowStatus) : Bool :=
  s = WorkflowStatus.completed || s = WorkflowStatus.approved ||
  s = WorkflowStatus.failed

/-- `JiraAgentService.cleanup_completed_workflows`: removes a workflow only
when its age (from `updated_at`) exceeds the threshold AND its status is
COMPLETED, APPROVED or FAILED. -/
def cleanup_completed_workflows (svc : AgentService) (now : Nat)
    (max_age_hours : Nat) : AgentService :=
  let workflows_to_remove := (svc.active_workflows.filter
    (fun p => decide (now - p.2.updated_at > max_age_hours * 3600) &&
              isSweptStatus p.2.status)).map Prod.fst
  { svc with active_workflows :=
      workflows_to_remove.foldl (fun m wid => removeEntry m wid) svc.active_workflows }

/-! ## Concrete fixtures for witnesses and counterexamples -/

/-- A well-formed extracted artifact (its `size_lines` equals the line
count of its one-line content). -/
def exFile : GeneratedFile :=
  { path := "a.py", content := "x", file_type := "source",
    language := "python", description := "d", size_lines := 1 }

/-- A session already finalized (state COMPLETED). -/
def exCompletedSession : CodeGenerationSession :=
  { session_id := "s1", ticket_key := "ABC-1",
    current_state := WorkflowState.completed, generated_code := [exFile] }

/-- A session awaiting approval below its iteration ceiling. -/
def exAwaitingSession : CodeGenerationSession :=
  { session_id := "s1", ticket_key := "ABC-1",
    current_state := WorkflowState.awaiting_approval, iteration_count := 1,
    max_iterations := 2, generated_code := [exFile] }

/-- A session awaiting approval at its iteration ceiling. -/
def exCeilingSession : CodeGenerationSession :=
  { exAwaitingSession with iteration_count := 2 }

/-- Feedback approving the generated code. -/
def exApproved : UserFeedback :=
  { feedback_text := "ok", approval_status := ApprovalStatus.approved }

/-- Feedback rejecting the generated code. -/
def exRejected : UserFeedback :=
  { feedback_text := "no", approval_status := ApprovalStatus.rejected }

/-- A successful LLM response. -/
def exLLM : LLMResponse := { content := "hello", tokens_used := 3 }

/-- A non-terminal workflow record of the parallel agent service. -/
def exWorkflowPending : CodeGenerationWorkflow :=
  { workflow_id := "w1", ticket_key := "T-1",
    status := WorkflowStatus.pending_approval, updated_at := 0 }

/-- A fetched ticket. -/
def exTicket : JiraTicketData := { key := "ABC-1", summary := "sum" }

/-- A ticket analysis. -/
def exAnalysis : JiraTicketAnalysis :=
  { ticket_key := "ABC-1", requirements := ["r1"], technical_specs := ["t1"],
    acceptance_criteria := ["c1"], complexity_score := 3, estimated_files := 1,
    suggested_technologies := ["typescript"] }

/-- A start request with default options. -/
def exRequest : JiraAgentRequest := { ticket_key := "ABC-1" }

/-- A collaborator run in which ticket fetch succeeds but the requirement
analysis fails. -/
def exCollabAnalysisFails : CollaboratorRun :=
  { jira_init_ok := true, ticket := some exTicket, analysis := none,
    generation := { success := true, generated_files := [exFile] } }

/-! ## Dictionary lemmas -/

/-- Looking up the stored key after a dictionary assignment returns the
assigned value. -/
theorem lookupEntry_storeEntry_self (m : List (String × α)) (k : String) (v : α) :
    lookupEntry (storeEntry m k v) k = some v := by
  induction m with
  | nil => simp [storeEntry, lookupEntry]
  | cons p rest ih =>
    obtain ⟨pk, pv⟩ := p
    by_cases h : pk = k
    · simp [storeEntry, h, lookupEntry]
    · simp [storeEntry, h, lookupEntry, ih]

/-! ## C1 — approval against a non-AWAITING_APPROVAL session -/

/-- C1 counterexample: on a session already in COMPLETED,
`handle_user_approval` with an approved decision returns a SUCCESS
response (not an `InvalidStateError`-kind failure) and mutates the
session: the feedback is appended to its history. -/
theorem submitApproval_terminal_counterexample :
    (handle_user_approval ⟨[("s1", exCompletedSession)]⟩ 0 ⟨"s1", exApproved⟩
        (Except.error "unused")).2.success = true
    ∧ (lookupEntry (handle_user_approval ⟨[("s1", exCompletedSession)]⟩ 0
          ⟨"s1", exApproved⟩ (Except.error "unused")).1.sessions "s1").map
        (fun s => s.user_feedback_history) = some [exApproved] :=
  ⟨rfl, rfl⟩

/-- C1 amended: `handle_user_approval` never consults the session state.
For any existing session — in particular one already COMPLETED or FAILED —
an approved decision appends the feedback to the history, moves the
session to COMPLETED and returns a success response; no
`InvalidStateError`-kind failure is produced. -/
theorem submitApproval_no_state_guard (svc : WorkflowService) (now : Nat)
    (req : ApprovalRequest) (llm : Except String LLMResponse)
    (s : CodeGenerationSession)
    (hs : lookupEntry svc.sessions req.session_id = some s)
    (hfb : req.feedback.approval_status = ApprovalStatus.approved) :
    (handle_user_approval svc now req llm).2.success = true
    ∧ (handle_user_approval svc now req llm).2.current_state = WorkflowState.completed
    ∧ lookupEntry (handle_user_approval svc now req llm).1.sessions req.session_id
        = some { s with
                 user_feedback_history := s.user_feedback_history ++ [req.feedback],
                 current_state := WorkflowState.completed, updated_at := now } := by
  simp [handle_user_approval, hs, hfb, lookupEntry_storeEntry_self]

/-- C1 witness: the amended theorem applied to a concrete COMPLETED
session. -/
theorem submitApproval_no_state_guard_witness :
    (handle_user_approval ⟨[("s1", exCompletedSession)]⟩ 4 ⟨"s1", exApproved⟩
        (Except.error "unused")).2.success = true
    ∧ (handle_user_approval ⟨[("s1", exCompletedSession)]⟩ 4 ⟨"s1", exApproved⟩
        (Except.error "unused")).2.current_state = WorkflowState.completed
    ∧ lookupEntry (handle_user_approval ⟨[("s1", exCompletedSession)]⟩ 4
          ⟨"s1", exApproved⟩ (Except.error "unused")).1.sessions "s1"
        = some { exCompletedSession with
                 user_feedback_history := exCompletedSession.user_feedback_history ++ [exApproved],
                 current_state := WorkflowState.completed, updated_at := 4 } :=
  submitApproval_no_state_guard ⟨[("s1", exCompletedSession)]⟩ 4
    ⟨"s1", exApproved⟩ (Except.error "unused") exCompletedSession rfl rfl

/-! ## C2 — rejection at the iteration ceiling -/

/-- C2: on a session in AWAITING_APPROVAL whose `iteration_count` has
reached `max_iterations`, a rejected decision moves the session to FAILED,
returns a failure response whose message names the configured ceiling, and
leaves `iteration_count` unchanged. -/
theorem submitApproval_iteration_ceiling (svc : WorkflowService) (now : Nat)
    (req : ApprovalRequest) (llm : Except String LLMResponse)
    (s : CodeGenerationSession)
    (hs : lookupEntry svc.sessions req.session_id = some s)
    (hstate : s.current_state = WorkflowState.awaiting_approval)
    (hfb : req.feedback.approval_status = ApprovalStatus.rejected)
    (hiter : s.iteration_count ≥ s.max_iterations) :
    (handle_user_approval svc now req llm).2.success = false
    ∧ (handle_user_approval svc now req llm).2.current_state = WorkflowState.failed
    ∧ (handle_user_approval svc now req llm).2.message
        = "Maximum iterations (" ++ toString s.max_iterations ++ ") reached without approval"
    ∧ (lookupEntry (handle_user_approval svc now req llm).1.sessions
          req.session_id).map (fun t => t.current_state) = some WorkflowState.failed
    ∧ (lookupEntry (handle_user_approval svc now req llm).1.sessions
          req.session_id).map (fun t => t.iteration_count) = some s.iteration_count := by
  simp only [handle_user_approval, hs, hfb]
  rw [if_pos hiter]
  simp [create_error_response, lookupEntry_storeEntry_self]

/-- C2 witness: the theorem applied to a concrete session at its ceiling
of 2 iterations. -/
theorem submitApproval_iteration_ceiling_witness :
    (handle_user_approval ⟨[("s1", exCeilingSession)]⟩ 9 ⟨"s1", exRejected⟩
        (Except.ok exLLM)).2.success = false
    ∧ (handle_user_approval ⟨[("s1", exCeilingSession)]⟩ 9 ⟨"s1", exRejected⟩
        (Except.ok exLLM)).2.current_state = WorkflowState.failed
    ∧ (handle_user_approval ⟨[("s1", exCeilingSession)]⟩ 9 ⟨"s1", exRejected⟩
        (Except.ok exLLM)).2.message
        = "Maximum iterations (" ++ toString exCeilingSession.max_iterations ++ ") reached without approval"
    ∧ (lookupEntry (handle_user_approval ⟨[("s1", exCeilingSession)]⟩ 9
          ⟨"s1", exRejected⟩ (Except.ok exLLM)).1.sessions "s1").map
        (fun t => t.current_state) = some WorkflowState.failed
    ∧ (lookupEntry (handle_user_approval ⟨[("s1", exCeilingSession)]⟩ 9
          ⟨"s1", exRejected⟩ (Except.ok exLLM)).1.sessions "s1").map
        (fun t => t.iteration_count) = some exCeilingSession.iteration_count :=
  submitApproval_iteration_ceiling ⟨[("s1", exCeilingSession)]⟩ 9
    ⟨"s1", exRejected⟩ (Except.ok exLLM) exCeilingSession rfl rfl rfl (by decide)

/-! ## C3 — rejection below the iteration ceiling -/

/-- C3: on a session in AWAITING_APPROVAL below its iteration ceiling and
with a successful LLM call, a rejected decision returns the session to
AWAITING_APPROVAL with `iteration_count` incremented by exactly one and a
non-empty artifact list both on the session and in the response. -/
theorem submitApproval_rejection_regenerates (svc : WorkflowService) (now : Nat)
    (req : ApprovalRequest) (resp : LLMResponse) (s : CodeGenerationSession)
    (hs : lookupEntry svc.sessions req.session_id = some s)
    (hstate : s.current_state = WorkflowState.awaiting_approval)
    (hfb : req.feedback.approval_status = ApprovalStatus.rejected)
    (hiter : s.iteration_count < s.max_iterations)
    (hne : s.generated_code ≠ []) :
    (handle_user_approval svc now req (Except.ok resp)).2.success = true
    ∧ (handle_user_approval svc now req (Except.ok resp)).2.current_state
        = WorkflowState.awaiting_approval
    ∧ (handle_user_approval svc now req (Except.ok resp)).2.iteration_count
        = s.iteration_count + 1
    ∧ (handle_user_approval svc now req (Except.ok resp)).2.generated_code ≠ []
    ∧ (lookupEntry (handle_user_approval svc now req (Except.ok resp)).1.sessions
          req.session_id).map (fun t => t.current_state)
        = some WorkflowState.awaiting_approval
    ∧ (lookupEntry (handle_user_approval svc now req (Except.ok resp)).1.sessions
          req.session_id).map (fun t => t.iteration_count)
        = some (s.iteration_count + 1)
    ∧ (lookupEntry (handle_user_approval svc now req (Except.ok resp)).1.sessions
          req.session_id).map (fun t => t.generated_code = []) = some False := by
  obtain ⟨g, gs, hgc⟩ : ∃ g gs, s.generated_code = g :: gs := by
    cases hgc : s.generated_code with
    | nil => exact absurd hgc hne
    | cons g gs => exact ⟨g, gs, rfl⟩
  simp only [handle_user_approval, hs, hfb]
  rw [if_neg (Nat.not_le.mpr hiter)]
  simp [regenerate_code_with_feedback, parse_improved_code_response, hgc,
    lookupEntry_storeEntry_self]

/-- C3 witness: the theorem applied to a concrete session one iteration
below its ceiling. -/
theorem submitApproval_rejection_regenerates_witness :
    (handle_user_approval ⟨[("s1", exAwaitingSession)]⟩ 7 ⟨"s1", exRejected⟩
        (Except.ok exLLM)).2.success = true
    ∧ (handle_user_approval ⟨[("s1", exAwaitingSession)]⟩ 7 ⟨"s1", exRejected⟩
        (Except.ok exLLM)).2.current_state = WorkflowState.awaiting_approval
    ∧ (handle_user_approval ⟨[("s1", exAwaitingSession)]⟩ 7 ⟨"s1", exRejected⟩
        (Except.ok exLLM)).2.iteration_count = exAwaitingSession.iteration_count + 1
    ∧ (handle_user_approval ⟨[("s1", exAwaitingSession)]⟩ 7 ⟨"s1", exRejected⟩
        (Except.ok exLLM)).2.generated_code ≠ []
    ∧ (lookupEntry (handle_user_approval ⟨[("s1", exAwaitingSession)]⟩ 7
          ⟨"s1", exRejected⟩ (Except.ok exLLM)).1.sessions "s1").map
        (fun t => t.current_state) = some WorkflowState.awaiting_approval
    ∧ (lookupEntry (handle_user_approval ⟨[("s1", exAwaitingSession)]⟩ 7
          ⟨"s1", exRejected⟩ (Except.ok exLLM)).1.sessions "s1").map
        (fun t => t.iteration_count) = some (exAwaitingSession.iteration_count + 1)
    ∧ (lookupEntry (handle_user_approval ⟨[("s1", exAwaitingSession)]⟩ 7
          ⟨"s1", exRejected⟩ (Except.ok exLLM)).1.sessions "s1").map
        (fun t => t.generated_code = []) = some False :=
  submitApproval_rejection_regenerates ⟨[("s1", exAwaitingSession)]⟩ 7
    ⟨"s1", exRejected⟩ exLLM exAwaitingSession rfl rfl rfl (by decide) (by decide)

/-! ## C4 — what feedback incorporation actually produces -/

/-- C4 counterexample: for a concrete session holding one artifact and the
concrete LLM revision response `"hello"`, the artifact list produced by
feedback incorporation differs from the ArtifactExtractor parse of that
response — under both extractor variants
(`_parse_generated_content` and `_parse_generated_code`). -/
theorem feedback_incorporation_counterexample :
    (regenerate_code_with_feedback exAwaitingSession exRejected (Except.ok exLLM)).2
        ≠ (parse_generated_content exLLM.content defaultGenerationOptions).toOption.getD []
    ∧ (regenerate_code_with_feedback exAwaitingSession exRejected (Except.ok exLLM)).2
        ≠ parse_generated_code exLLM.content defaultGenerationOptions := by
  refine ⟨?_, ?_⟩ <;> decide

/-- C4 amended: on a successful LLM call, feedback incorporation adds the
returned token usage to the session's cumulative counter, but does NOT
parse the response with the ArtifactExtractor: the new list keeps each
original artifact's path, type and language, and each new content is the
original content wrapped in a fixed banner plus the first 200 characters
of the response, with `size_lines` set to the original count plus 5. -/
theorem feedback_incorporation_amended (s : CodeGenerationSession)
    (fb : UserFeedback) (resp : LLMResponse) :
    (regenerate_code_with_feedback s fb (Except.ok resp)).1.total_tokens_used
        = s.total_tokens_used + resp.tokens_used
    ∧ (regenerate_code_with_feedback s fb (Except.ok resp)).2.length
        = s.generated_code.length
    ∧ (regenerate_code_with_feedback s fb (Except.ok resp)).2.map GeneratedFile.path
        = s.generated_code.map GeneratedFile.path
    ∧ (regenerate_code_with_feedback s fb (Except.ok resp)).2.map GeneratedFile.file_type
        = s.generated_code.map GeneratedFile.file_type
    ∧ (regenerate_code_with_feedback s fb (Except.ok resp)).2.map GeneratedFile.language
        = s.generated_code.map GeneratedFile.language
    ∧ (regenerate_code_with_feedback s fb (Except.ok resp)).2.map GeneratedFile.content
        = s.generated_code.map (fun f =>
            "// Improved based on user feedback\n" ++ f.content ++
            "\n\n// Additional improvements:\n// " ++ pyTake resp.content 200 ++ "...")
    ∧ (regenerate_code_with_feedback s fb (Except.ok resp)).2.map GeneratedFile.size_lines
        = s.generated_code.map (fun f => f.size_lines + 5) := by
  refine ⟨rfl, ?_, ?_, ?_, ?_, ?_, ?_⟩ <;>
    simp [regenerate_code_with_feedback, parse_improved_code_response, List.map_map]

/-! ## C5 — sweeping old sessions -/

/-- Removing a key different from the head leaves the head in place. -/
theorem removeEntry_cons_ne (k key : String) (v : α) (m : List (String × α))
    (h : k ≠ key) : removeEntry ((k, v) :: m) key = (k, v) :: removeEntry m key := by
  simp [removeEntry, h]

/-- Folding deletions over keys not containing the head key leaves the head
in place. -/
theorem foldl_removeEntry_notMem (R : List String) (k : String) (v : α)
    (m : List (String × α)) (h : k ∉ R) :
    R.foldl (fun acc sid => removeEntry acc sid) ((k, v) :: m)
      = (k, v) :: R.foldl (fun acc sid => removeEntry acc sid) m := by
  induction R generalizing m with
  | nil => rfl
  | cons r rs ih =>
    simp only [List.foldl_cons]
    rw [removeEntry_cons_ne k r v m (by rintro rfl; exact h (List.mem_cons_self _ _))]
    exact ih _ (fun hm => h (List.mem_cons_of_mem _ hm))

/-- The two-phase sweep — collect keys satisfying `P`, then delete them —
equals a single filter when the keys are unique (as they are in a Python
dict). -/
theorem foldl_removeEntry_filter (P : String × α → Bool) (m : List (String × α))
    (hnodup : (m.map Prod.fst).Nodup) :
    ((m.filter P).map Prod.fst).foldl (fun acc sid => removeEntry acc sid) m
      = m.filter (fun p => !(P p)) := by
  induction m with
  | nil => rfl
  | cons q rest ih =>
    obtain ⟨k, v⟩ := q
    simp only [List.map_cons, List.nodup_cons] at hnodup
    obtain ⟨hk, hrest⟩ := hnodup
    by_cases hp : P (k, v)
    · rw [List.filter_cons_of_pos hp]
      simp only [List.map_cons, List.foldl_cons]
      rw [show removeEntry ((k, v) :: rest) k = rest by simp [removeEntry]]
      rw [ih hrest, List.filter_cons_of_neg (by simp [hp])]
    · rw [List.filter_cons_of_neg hp]
      have hkR : k ∉ (rest.filter P).map Prod.fst := by
        intro hmem
        rcases List.mem_map.mp hmem with ⟨q2, hq2, hq2k⟩
        exact hk (hq2k ▸ List.mem_map_of_mem Prod.fst (List.mem_of_mem_filter hq2))
      rw [foldl_removeEntry_notMem _ k v rest hkR, ih hrest,
        List.filter_cons_of_pos (by simp [hp])]

/-- C5 counterexample: `cleanup_old_sessions` removes a session in the
non-terminal state AWAITING_APPROVAL once its age exceeds the threshold —
the sweep never consults the state. -/
theorem cleanup_removes_nonterminal_counterexample :
    exAwaitingSession.current_state = WorkflowState.awaiting_approval
    ∧ (cleanup_old_sessions ⟨[("s1", exAwaitingSession)]⟩ 7200 1).sessions = [] := by
  refine ⟨rfl, ?_⟩
  decide

/-- C5 amended: the workflow service's sweep removes exactly the sessions
whose age exceeds the threshold, regardless of state; the parallel agent
service's `cleanup_completed_workflows` removes exactly the workflows older
than the threshold whose status is COMPLETED, APPROVED or FAILED, and so
never removes a non-terminal workflow. -/
theorem cleanup_sweeps_amended :
    (∀ (svc : WorkflowService) (now max_age_hours : Nat),
        (svc.sessions.map Prod.fst).Nodup →
        (cleanup_old_sessions svc now max_age_hours).sessions
          = svc.sessions.filter (fun p =>
              !(decide (now - p.2.created_at > max_age_hours * 3600))))
    ∧ (∀ (svc : AgentService) (now max_age_hours : Nat),
        (svc.active_workflows.map Prod.fst).Nodup →
        (cleanup_completed_workflows svc now max_age_hours).active_workflows
          = svc.active_workflows.filter (fun p =>
              !(decide (now - p.2.updated_at > max_age_hours * 3600) &&
                isSweptStatus p.2.status))) := by
  constructor
  · intro svc now max_age_hours hnodup
    exact foldl_removeEntry_filter _ svc.sessions hnodup
  · intro svc now max_age_hours hnodup
    exact foldl_removeEntry_filter _ svc.active_workflows hnodup

/-- C5 witness: the amended theorem applied to a one-session store (old,
non-terminal: swept by the workflow sweep) and a one-workflow store (old,
non-terminal: kept by the agent sweep). -/
theorem cleanup_sweeps_amended_witness :
    ((cleanup_old_sessions ⟨[("s1", exAwaitingSession)]⟩ 7200 1).sessions
        = [("s1", exAwaitingSession)].filter (fun p =>
            !(decide (7200 - p.2.created_at > 1 * 3600))))
    ∧ ((cleanup_completed_workflows ⟨[("w1", exWorkflowPending)]⟩ 7200 1).active_workflows
        = [("w1", exWorkflowPending)].filter (fun p =>
            !(decide (7200 - p.2.updated_at > 1 * 3600) && isSweptStatus p.2.status))) :=
  ⟨cleanup_sweeps_amended.1 ⟨[("s1", exAwaitingSession)]⟩ 7200 1 (by decide),
   cleanup_sweeps_amended.2 ⟨[("w1", exWorkflowPending)]⟩ 7200 1 (by decide)⟩

/-- Binding after an `Except` failure keeps the failure (definitional). -/
theorem except_error_bind {α β : Type} (e : String) (k : α → Except String β) :
    (Except.error e : Except String α) >>= k = Except.error e := rfl

/-- Binding after an `Except` success applies the continuation
(definitional). -/
theorem except_ok_bind {α β : Type} (a : α) (k : α → Except String β) :
    (Except.ok a : Except String α) >>= k = k a := rfl

/-! ## C6 — the extractor can raise -/

/-- C6: contrary to the never-raises contract, `_parse_generated_content`
raises `IndexError` on the input `"a.py\n```"`: the detected file body is
the single fence delimiter line, the fence-stripping code drops it as an
opening fence, and `lines[-1]` is then evaluated on an empty list. -/
theorem extractor_raises_on_fence_only_body :
    parse_generated_content "a.py\n```" defaultGenerationOptions
      = Except.error "IndexError: list index out of range" := rfl

/-! ## C7 — the zero-boundary fallback -/

/-- C7 counterexample: the fenced-block extractor variant
`_parse_generated_code` (the one reached from
`generate_code_from_requirements` at initial generation) returns an EMPTY
artifact list on the empty input string instead of a single synthesized
artifact. -/
theorem extractor_empty_input_counterexample :
    parse_generated_code "" defaultGenerationOptions = [] := rfl

/-- C7 amended: for `_parse_generated_content`, zero detected boundaries
yield exactly one artifact of kind source holding the entire input text
under a default path with the style's conventional extension, and every
list it returns is non-empty; the duplicate `_parse_generated_code`
instead strips the content and returns an empty list on a blank input. -/
theorem extractor_zero_boundary_amended :
    (∀ (content : String) (options : GenerationOptions),
        findFileMatches content = [] →
        parse_generated_content content options = Except.ok
          [{ path := "generated_code." ++ get_default_extension options.code_style,
             content := content, file_type := "source",
             language := options.code_style,
             description := "Generated " ++ options.code_style ++ " code for " ++
               options.framework,
             size_lines := countLines content }])
    ∧ (∀ (content : String) (options : GenerationOptions)
          (files : List GeneratedFile),
        parse_generated_content content options = Except.ok files → files ≠ [])
    ∧ (∀ options : GenerationOptions, parse_generated_code "" options = []) := by
  refine ⟨?_, ?_, ?_⟩
  · intro content options h
    unfold parse_generated_content
    rw [h]
    rfl
  · intro content options files h
    unfold parse_generated_content at h
    cases hm : processMatches (findFileMatches content) with
    | error e =>
      rw [hm, except_error_bind] at h
      exact Except.noConfusion h
    | ok files0 =>
      rw [hm, except_ok_bind] at h
      cases hemp : files0.isEmpty with
      | true =>
        rw [hemp] at h
        simp only [if_pos] at h
        obtain rfl := Except.ok.inj h
        simp
      | false =>
        rw [hemp] at h
        simp only [Bool.false_eq_true, if_neg, not_false_eq_true] at h
        obtain rfl := Except.ok.inj h
        exact List.isEmpty_eq_false.mp hemp
  · intro options
    rfl

/-- C7 witness: the amended theorem applied to the empty input, whose
boundary scan is empty, yielding the single whole-text artifact. -/
theorem extractor_zero_boundary_amended_witness :
    parse_generated_content "" defaultGenerationOptions = Except.ok
      [{ path := "generated_code." ++ get_default_extension defaultGenerationOptions.code_style,
         content := "", file_type := "source",
         language := defaultGenerationOptions.code_style,
         description := "Generated " ++ defaultGenerationOptions.code_style ++
           " code for " ++ defaultGenerationOptions.framework,
         size_lines := countLines "" }] :=
  extractor_zero_boundary_amended.1 "" defaultGenerationOptions rfl

/-! ## C8 — `size_lines` versus the actual line count -/

/-- A single extractor match yields a file whose `size_lines` is the line
count of its content. -/
theorem processMatch_size_lines (m : String × String) (g : GeneratedFile)
    (h : processMatch m = Except.ok g) : g.size_lines = countLines g.content := by
  unfold processMatch at h
  cases hsf : stripBodyFences (pyStrip m.2) with
  | error e => rw [hsf] at h; simp at h
  | ok fc =>
    rw [hsf] at h
    simp at h
    subst h
    rfl

/-- Every file returned by the match loop satisfies any property preserved
by `processMatch`. -/
theorem processMatches_forall (P : GeneratedFile → Prop)
    (hf : ∀ m g, processMatch m = Except.ok g → P g) :
    ∀ (ms : List (String × String)) (gs : List GeneratedFile),
      processMatches ms = Except.ok gs → ∀ g ∈ gs, P g := by
  intro ms
  induction ms with
  | nil =>
    intro gs h g hg
    obtain rfl := Except.ok.inj h
    simp at hg
  | cons m rest ih =>
    intro gs h g hg
    unfold processMatches at h
    cases hm : processMatch m with
    | error e =>
      rw [hm, except_error_bind] at h
      exact Except.noConfusion h
    | ok g0 =>
      rw [hm, except_ok_bind] at h
      cases hrest : processMatches rest with
      | error e =>
        rw [hrest, except_error_bind] at h
        exact Except.noConfusion h
      | ok gs0 =>
        rw [hrest, except_ok_bind] at h
        obtain rfl := Except.ok.inj h
        rcases List.mem_cons.mp hg with h1 | h2
        · exact h1 ▸ hf m g0 hm
        · exact ih gs0 hrest g h2

/-- C8 counterexample: run the feedback-incorporation path on a session
holding one well-formed artifact (content `"x"`, `size_lines = 1`): the
resulting artifact records `size_lines = 6` while its content has 5
newline-delimited lines. -/
theorem size_lines_counterexample :
    (regenerate_code_with_feedback exAwaitingSession exRejected (Except.ok exLLM)).2.map
        (fun g => (g.size_lines, countLines g.content)) = [(6, 5)]
    ∧ (6 : Nat) ≠ 5 := by
  refine ⟨?_, ?_⟩ <;> decide

/-- C8 amended: artifacts created by the extractor
(`_parse_generated_content`) do satisfy `size_lines` = line count of
content, both per match and in the zero-boundary fallback; but feedback
incorporation sets each new artifact's `size_lines` to the original's plus
5, which differs from the line count of the new content whenever the first
200 characters of the LLM response do not contain exactly one newline. -/
theorem size_lines_amended :
    (∀ (content : String) (options : GenerationOptions)
        (files : List GeneratedFile),
        parse_generated_content content options = Except.ok files →
        ∀ g ∈ files, g.size_lines = countLines g.content)
    ∧ (∀ (response : String) (original_files : List GeneratedFile),
        (parse_improved_code_response response original_files).map
            GeneratedFile.size_lines
          = original_files.map (fun f => f.size_lines + 5)) := by
  constructor
  · intro content options files h
    unfold parse_generated_content at h
    cases hm : processMatches (findFileMatches content) with
    | error e =>
      rw [hm, except_error_bind] at h
      exact Except.noConfusion h
    | ok files0 =>
      rw [hm, except_ok_bind] at h
      cases hemp : files0.isEmpty with
      | true =>
        rw [hemp] at h
        simp only [if_pos] at h
        obtain rfl := Except.ok.inj h
        intro g hg
        simp at hg
        subst hg
        rfl
      | false =>
        rw [hemp] at h
        simp only [Bool.false_eq_true, if_neg, not_false_eq_true] at h
        obtain rfl := Except.ok.inj h
        exact processMatches_forall _ processMatch_size_lines
          (findFileMatches content) files0 hm
  · intro response original_files
    simp only [parse_improved_code_response, List.map_map]
    rfl

/-- C8 witness: the extractor half of the amended theorem evaluated on the
concrete input `"hello"`. -/
theorem size_lines_amended_witness :
    parse_generated_content "hello" defaultGenerationOptions = Except.ok
      [{ path := "generated_code.ts", content := "hello", file_type := "source",
         language := "typescript",
         description := "Generated typescript code for react", size_lines := 1 }]
    ∧ ∀ g ∈ [({ path := "generated_code.ts", content := "hello",
                file_type := "source", language := "typescript",
                description := "Generated typescript code for react",
                size_lines := 1 } : GeneratedFile)],
        g.size_lines = countLines g.content :=
  ⟨rfl, size_lines_amended.1 "hello" defaultGenerationOptions _ rfl⟩

/-! ## C9 — collaborator failure during start -/

/-- C9: whenever any collaborator step fails during start — JIRA client
initialization, ticket fetch, requirement analysis, or code generation
(failure or empty file list) — the returned response is a structured
failure (no exception escapes), the session ends in FAILED with a
non-empty error list, and the data stored by the steps that completed
before the failing one is retained on the session. -/
theorem start_collaborator_failure (svc : WorkflowService) (now : Nat)
    (session_id : String) (request : JiraAgentRequest) (collab : CollaboratorRun)
    (hfail : collab.jira_init_ok = false ∨ collab.ticket = none ∨
      collab.analysis = none ∨ generate_code_from_analysis collab.generation = []) :
    (start_jira_agent_process svc now session_id request collab).2.success = false
    ∧ (start_jira_agent_process svc now session_id request collab).2.current_state
        = WorkflowState.failed
    ∧ (lookupEntry (start_jira_agent_process svc now session_id request collab).1.sessions
          session_id).map (fun t => t.current_state) = some WorkflowState.failed
    ∧ (lookupEntry (start_jira_agent_process svc now session_id request collab).1.sessions
          session_id).map (fun t => t.error_messages = []) = some False
    ∧ (collab.jira_init_ok = true → ∀ t, collab.ticket = some t →
        (lookupEntry (start_jira_agent_process svc now session_id request collab).1.sessions
            session_id).map (fun u => u.original_ticket) = some (some t))
    ∧ (collab.jira_init_ok = true → ∀ t a, collab.ticket = some t →
        collab.analysis = some a →
        (lookupEntry (start_jira_agent_process svc now session_id request collab).1.sessions
            session_id).map (fun u => u.ticket_analysis) = some (some a)) := by
  cases hinit : collab.jira_init_ok with
  | false =>
    simp [start_jira_agent_process, hinit, create_error_response,
      lookupEntry_storeEntry_self]
  | true =>
    cases hticket : collab.ticket with
    | none =>
      simp [start_jira_agent_process, hinit, hticket, create_error_response,
        lookupEntry_storeEntry_self]
    | some t =>
      cases hanalysis : collab.analysis with
      | none =>
        simp [start_jira_agent_process, hinit, hticket, hanalysis,
          create_error_response, lookupEntry_storeEntry_self]
      | some a =>
        have hempty : generate_code_from_analysis collab.generation = [] := by
          rcases hfail with h | h | h | h
          · rw [hinit] at h; exact Bool.noConfusion h
          · rw [hticket] at h; exact Option.noConfusion h
          · rw [hanalysis] at h; exact Option.noConfusion h
          · exact h
        simp [start_jira_agent_process, hinit, hticket, hanalysis, hempty,
          create_error_response, lookupEntry_storeEntry_self]

/-- C9 witness: the theorem applied to a run in which the ticket fetch
succeeds and the requirement analysis fails; the fetched ticket is
retained on the FAILED session. -/
theorem start_collaborator_failure_witness :
    (start_jira_agent_process ⟨[]⟩ 2 "sid" exRequest exCollabAnalysisFails).2.success = false
    ∧ (start_jira_agent_process ⟨[]⟩ 2 "sid" exRequest exCollabAnalysisFails).2.current_state
        = WorkflowState.failed
    ∧ (lookupEntry (start_jira_agent_process ⟨[]⟩ 2 "sid" exRequest
          exCollabAnalysisFails).1.sessions "sid").map (fun t => t.current_state)
        = some WorkflowState.failed
    ∧ (lookupEntry (start_jira_agent_process ⟨[]⟩ 2 "sid" exRequest
          exCollabAnalysisFails).1.sessions "sid").map (fun t => t.error_messages = [])
        = some False
    ∧ (exCollabAnalysisFails.jira_init_ok = true → ∀ t,
        exCollabAnalysisFails.ticket = some t →
        (lookupEntry (start_jira_agent_process ⟨[]⟩ 2 "sid" exRequest
            exCollabAnalysisFails).1.sessions "sid").map (fun u => u.original_ticket)
          = some (some t))
    ∧ (exCollabAnalysisFails.jira_init_ok = true → ∀ t a,
        exCollabAnalysisFails.ticket = some t →
        exCollabAnalysisFails.analysis = some a →
        (lookupEntry (start_jira_agent_process ⟨[]⟩ 2 "sid" exRequest
            exCollabAnalysisFails).1.sessions "sid").map (fun u => u.ticket_analysis)
          = some (some a)) :=
  start_collaborator_failure ⟨[]⟩ 2 "sid" exRequest exCollabAnalysisFails
    (Or.inr (Or.inr (Or.inl rfl)))

/-! ## C10 — revisions never add, remove, rename or re-type files -/

/-- C10: for any original artifact list and any LLM response, the revision
parser returns a list of exactly the same length in the same order, the
i-th new artifact keeping the i-th original's path, file type and
language. -/
theorem revision_preserves_file_identity (response : String)
    (original_files : List GeneratedFile) :
    (parse_improved_code_response response original_files).length
        = original_files.length
    ∧ (parse_improved_code_response response original_files).map GeneratedFile.path
        = original_files.map GeneratedFile.path
    ∧ (parse_improved_code_response response original_files).map GeneratedFile.file_type
        = original_files.map GeneratedFile.file_type
    ∧ (parse_improved_code_response response original_files).map GeneratedFile.language
        = original_files.map GeneratedFile.language := by
  refine ⟨?_, ?_, ?_, ?_⟩ <;>
    simp [parse_improved_code_response, List.map_map]

/-! ## Reachability support: AWAITING_APPROVAL sessions hold artifacts

These two lemmas justify the non-empty-artifact hypothesis of the C3
theorem: both entry points only ever leave the touched session in
AWAITING_APPROVAL together with a non-empty artifact list, so every
reachable AWAITING_APPROVAL session satisfies it. -/

/-- After `start_jira_agent_process`, if the created session is in
AWAITING_APPROVAL then its artifact list is non-empty. -/
theorem start_awaiting_has_artifacts (svc : WorkflowService) (now : Nat)
    (session_id : String) (request : JiraAgentRequest) (collab : CollaboratorRun)
    (t : CodeGenerationSession)
    (ht : lookupEntry (start_jira_agent_process svc now session_id request collab).1.sessions
        session_id = some t)
    (hstate : t.current_state = WorkflowState.awaiting_approval) :
    t.generated_code ≠ [] := by
  cases hinit : collab.jira_init_ok with
  | false =>
    simp [start_jira_agent_process, hinit, create_error_response,
      lookupEntry_storeEntry_self] at ht
    rw [← ht] at hstate
    exact absurd hstate (by simp)
  | true =>
    cases hticket : collab.ticket with
    | none =>
      simp [start_jira_agent_process, hinit, hticket, create_error_response,
        lookupEntry_storeEntry_self] at ht
      rw [← ht] at hstate
      exact absurd hstate (by simp)
    | some tk =>
      cases hanalysis : collab.analysis with
      | none =>
        simp [start_jira_agent_process, hinit, hticket, hanalysis,
          create_error_response, lookupEntry_storeEntry_self] at ht
        rw [← ht] at hstate
        exact absurd hstate (by simp)
      | some a =>
        cases hgen : generate_code_from_analysis collab.generation with
        | nil =>
          simp [start_jira_agent_process, hinit, hticket, hanalysis, hgen,
            create_error_response, lookupEntry_storeEntry_self] at ht
          rw [← ht] at hstate
          exact absurd hstate (by simp)
        | cons g gs =>
          simp [start_jira_agent_process, hinit, hticket, hanalysis, hgen,
            lookupEntry_storeEntry_self] at ht
          rw [← ht]
          simp

/-- After `handle_user_approval`, if the touched session is in
AWAITING_APPROVAL then its artifact list is non-empty. -/
theorem approval_awaiting_has_artifacts (svc : WorkflowService) (now : Nat)
    (req : ApprovalRequest) (llm : Except String LLMResponse)
    (t : CodeGenerationSession)
    (ht : lookupEntry (handle_user_approval svc now req llm).1.sessions
        req.session_id = some t)
    (hstate : t.current_state = WorkflowState.awaiting_approval) :
    t.generated_code ≠ [] := by
  cases hs : lookupEntry svc.sessions req.session_id with
  | none =>
    simp only [handle_user_approval, hs, create_error_response] at ht
    exact Option.noConfusion ht
  | some s =>
    cases hfb : req.feedback.approval_status with
    | approved =>
      simp only [handle_user_approval, hs, hfb, lookupEntry_storeEntry_self] at ht
      obtain rfl := Option.some.inj ht
      exact absurd hstate (by simp)
    | pending =>
      simp only [handle_user_approval, hs, hfb, create_error_response,
        lookupEntry_storeEntry_self] at ht
      obtain rfl := Option.some.inj ht
      exact absurd hstate (by simp)
    | rejected =>
      by_cases hiter : s.iteration_count ≥ s.max_iterations
      · simp only [handle_user_approval, hs, hfb] at ht
        rw [if_pos hiter] at ht
        simp only [create_error_response, lookupEntry_storeEntry_self] at ht
        obtain rfl := Option.some.inj ht
        exact absurd hstate (by simp)
      · cases hllm : llm with
        | error e =>
          simp only [handle_user_approval, hs, hfb] at ht
          rw [if_neg hiter] at ht
          simp only [hllm, regenerate_code_with_feedback, List.isEmpty_nil,
            if_pos, create_error_response, lookupEntry_storeEntry_self] at ht
          obtain rfl := Option.some.inj ht
          exact absurd hstate (by simp)
        | ok resp =>
          cases hgc : s.generated_code with
          | nil =>
            simp only [handle_user_approval, hs, hfb] at ht
            rw [if_neg hiter] at ht
            simp only [hllm, regenerate_code_with_feedback,
              parse_improved_code_response, hgc, List.map_nil, List.isEmpty_nil,
              if_pos, create_error_response, lookupEntry_storeEntry_self] at ht
            obtain rfl := Option.some.inj ht
            exact absurd hstate (by simp)
          | cons g gs =>
            simp only [handle_user_approval, hs, hfb] at ht
            rw [if_neg hiter] at ht
            simp only [hllm, regenerate_code_with_feedback,
              parse_improved_code_response, hgc, List.map_cons,
              List.isEmpty_cons, Bool.false_eq_true, if_neg,
              not_false_eq_true, lookupEntry_storeEntry_self] at ht
            obtain rfl := Option.some.inj ht
            simp

end JiraAgent
